import Mathlib

/-!
Shallow embedding of the Kong Konnect developer-portal MCP client
(`src/api.ts`, class `KongApi`, and `src/operations/devPortal.ts`).

Upstream HTTP transport is modelled as an oracle `World : Request → Transport`;
every operation is written in explicit state-passing style and additionally
returns the ordered list of HTTP requests it issued, so that claims about
"exactly one upstream call", call ordering, and header contents are statable.

JavaScript dynamic values are modelled by the inductive `Json`, which includes
an `undef` constructor for JavaScript's `undefined` (distinct from `null`),
together with JS truthiness, member access, and template stringification.
-/

namespace KonnectPortal

/-- JavaScript value as seen by this client: JSON values plus `undefined`. -/
inductive Json where
  | null : Json
  | undefined : Json
  | bool : Bool → Json
  | num : Int → Json
  | str : String → Json
  | arr : List Json → Json
  | obj : List (String × Json) → Json
deriving Inhabited

/-- JS truthiness of a value (`if (x)`). -/
def Json.truthy : Json → Bool
  | .null => false
  | .undefined => false
  | .bool b => b
  | .num n => n != 0
  | .str s => s != ""
  | .arr _ => true
  | .obj _ => true

/-- Whether a value is an array (`Array.isArray`). -/
def Json.isArr : Json → Bool
  | .arr _ => true
  | _ => false

/-- Elements of an array value (empty for non-arrays). -/
def Json.elems : Json → List Json
  | .arr xs => xs
  | _ => []

/-- Member access on a value that is not `null`/`undefined`:
`obj.k` is the field value when present, otherwise JS `undefined`.
Non-object primitives also yield `undefined` for any member. -/
def fieldOrUndefined (j : Json) (k : String) : Json :=
  match j with
  | .obj fs =>
    match fs.find? (fun f => f.1 == k) with
    | some f => f.2
    | none => .undefined
  | _ => .undefined

/-- Whether member access on the value is legal in JS
(everything except `null` and `undefined`). -/
def memberable : Json → Bool
  | .null => false
  | .undefined => false
  | _ => true

mutual

/-- Template-literal stringification of a JS value (backtick interpolation). -/
def Json.display : Json → String
  | .null => "null"
  | .undefined => "undefined"
  | .bool b => if b then "true" else "false"
  | .num n => toString n
  | .str s => s
  | .arr xs => String.intercalate "," (displayList xs)
  | .obj _ => "[object Object]"

/-- Stringification of the elements of an array value. -/
def displayList : List Json → List String
  | [] => []
  | x :: xs => x.display :: displayList xs

end

mutual

/-- JSON.stringify, as far as this client can observe it
(no `undefined` pruning subtleties are reachable from the claims). -/
def jsonStringify : Json → String
  | .null => "null"
  | .undefined => "undefined"
  | .bool b => if b then "true" else "false"
  | .num n => toString n
  | .str s => "\"" ++ s ++ "\""
  | .arr xs => "[" ++ String.intercalate "," (stringifyList xs) ++ "]"
  | .obj fs => "\x7b" ++ String.intercalate "," (stringifyFields fs) ++ "\x7d"

/-- Serialization of array elements. -/
def stringifyList : List Json → List String
  | [] => []
  | x :: xs => jsonStringify x :: stringifyList xs

/-- Serialization of object fields. -/
def stringifyFields : List (String × Json) → List String
  | [] => []
  | f :: fs => ("\"" ++ f.1 ++ "\":" ++ jsonStringify f.2) :: stringifyFields fs

end

/-- Characters `needle` lead the characters `hay` (prefix test, written out
to keep the development self-contained). -/
def charsLeadWith : List Char → List Char → Bool
  | [], _ => true
  | _ :: _, [] => false
  | n :: ns, h :: hs => n == h && charsLeadWith ns hs

/-- Characters `needle` occur contiguously somewhere in `hay`. -/
def charsContain : List Char → List Char → Bool
  | [], needle => needle.isEmpty
  | h :: t, needle => charsLeadWith needle (h :: t) || charsContain t needle

/-- JS `hay.includes(needle)`. -/
def strContains (hay needle : String) : Bool :=
  charsContain hay.data needle.data

/-- Characters remaining immediately after the first occurrence of `needle`
in `hay`; `none` when `needle` does not occur. -/
def restAfterSub : List Char → List Char → Option (List Char)
  | [], needle => if needle.isEmpty then some [] else none
  | h :: t, needle =>
    if charsLeadWith needle (h :: t) then some (List.drop needle.length (h :: t))
    else restAfterSub t needle

/-- Whether a codepoint is left unescaped by `encodeURIComponent`
(letters, digits, and `- _ . ! ~ * ' ( )`). -/
def isUnreservedCh (c : Char) : Bool :=
  (65 ≤ c.toNat && c.toNat ≤ 90) || (97 ≤ c.toNat && c.toNat ≤ 122) ||
  (48 ≤ c.toNat && c.toNat ≤ 57) ||
  c.toNat == 45 || c.toNat == 95 || c.toNat == 46 || c.toNat == 33 ||
  c.toNat == 126 || c.toNat == 42 || c.toNat == 39 || c.toNat == 40 || c.toNat == 41

/-- Uppercase hexadecimal digit for a value below 16. -/
def hexDigit (n : Nat) : Char :=
  if n < 10 then Char.ofNat (48 + n) else Char.ofNat (55 + n)

/-- Percent-encoding of one byte. -/
def pctByte (b : Nat) : List Char :=
  [Char.ofNat 37, hexDigit (b / 16), hexDigit (b % 16)]

/-- UTF-8 bytes of a codepoint. -/
def utf8Bytes (n : Nat) : List Nat :=
  if n < 128 then [n]
  else if n < 2048 then [192 + n / 64, 128 + n % 64]
  else if n < 65536 then [224 + n / 4096, 128 + (n / 64) % 64, 128 + n % 64]
  else [240 + n / 262144, 128 + (n / 4096) % 64, 128 + (n / 64) % 64, 128 + n % 64]

/-- JS `encodeURIComponent`. -/
def encodeURIComponent (s : String) : String :=
  String.mk (s.data.foldr
    (fun c acc =>
      (if isUnreservedCh c then [c]
       else (utf8Bytes c.toNat).foldr (fun b a => pctByte b ++ a) []) ++ acc)
    [])

/-- Mutable state of a `KongApi` instance: the immutable admin base URL and
bearer key fixed by the constructor, plus the two memoization maps
`portalBaseUrls` and `portalAuthCookies` (modelled as association lists
with `Map.set` semantics). -/
structure CState where
  adminBaseUrl : String
  apiKey : String
  portalBaseUrls : List (String × String)
  portalAuthCookies : List (String × String)
deriving Inhabited

/-- `Map.get` on an association list. -/
def lookupA (m : List (String × String)) (k : String) : Option String :=
  (m.find? (fun p => p.1 == k)).map (fun p => p.2)

/-- `Map.set` on an association list: replace an existing binding in place,
otherwise append. -/
def setA (m : List (String × String)) (k v : String) : List (String × String) :=
  if (m.find? (fun p => p.1 == k)).isSome then
    m.map (fun p => if p.1 == k then (k, v) else p)
  else m ++ [(k, v)]

/-- One HTTP request as handed to axios: method, full URL, headers in
insertion order, and optional JSON body. -/
structure Request where
  method : String
  url : String
  headers : List (String × String)
  body : Option Json
deriving Inhabited

/-- What the wire did for one request: a delivered response (any status, with
parsed body and `set-cookie` headers), no response at all, or a failure to
even send. -/
inductive Transport where
  | response : Nat → Json → List String → Transport
  | noResponse : Transport
  | sendFailure : String → Transport

/-- Upstream oracle: the (deterministic) behaviour of the network. -/
abbrev World := Request → Transport

/-- Error escaping a client call: either a plain JS `Error` with its message,
or a raw axios error re-thrown unchanged (as by the authenticate method). -/
inductive KErr where
  | thrown : String → KErr
  | axiosErr : Option Nat → KErr
deriving Inhabited

/-- Outcome of a stateful client call: result or error, the state afterwards,
and the ordered list of HTTP requests issued. -/
abbrev KOut (α : Type) := Except KErr α × CState × List Request

/-- Headers present on every `kongRequest`. -/
def baseHeaders : List (String × String) :=
  [("Content-Type", "application/json"), ("Accept", "application/json")]

/-- Message of the error thrown for a delivered non-2xx response
(the `error.response` branch of `kongRequest`'s catch). -/
def apiErrorK (status : Nat) (errorData : Json) : KErr :=
  match errorData with
  | .null => .thrown "TypeError: Cannot read properties of null (reading \x27message\x27)"
  | .str s => .thrown ("API Error (Status " ++ toString status ++ "): " ++ (String.mk (s.data.take 200)))
  | .obj fs =>
    let m := fieldOrUndefined (.obj fs) "message"
    let details := if m.truthy then m.display else jsonStringify (.obj fs)
    .thrown ("API Error (Status " ++ toString status ++ "): " ++ details)
  | .arr xs =>
    let m := fieldOrUndefined (.arr xs) "message"
    let details := if m.truthy then m.display else jsonStringify (.arr xs)
    .thrown ("API Error (Status " ++ toString status ++ "): " ++ details)
  | _ => .thrown ("API Error (Status " ++ toString status ++ ")")

/-- Message thrown when the request got no response. -/
def networkErrorMsg : String :=
  "Network Error: No response received from Kong API. Please check your network connection and API endpoint configuration."

/-- Wrapper applied by `kongRequest`'s catch to a plain error without
`response`/`request` fields (e.g. one thrown by `getPortalBaseUrl`). -/
def requestErrorWrap : KErr → KErr
  | .thrown m => .thrown ("Request Error: " ++ m ++ ". Please check your request parameters and try again.")
  | .axiosErr s => .axiosErr s

/-- Synthetic body returned for a `204 No Content` response. -/
def successJson : Json := Json.obj [("success", Json.bool true)]

/-- Response/error handling of `kongRequest`: axios's default `validateStatus`
accepts only 2xx; a delivered `204` yields the synthetic success object
without touching the body; any other delivered 2xx yields the parsed body
unmodified; everything else becomes a descriptive thrown error. -/
def handleTransport (t : Transport) : Except KErr Json :=
  match t with
  | .response s d _ =>
    if 200 ≤ s ∧ s < 300 then
      if s = 204 then .ok successJson else .ok d
    else .error (apiErrorK s d)
  | .noResponse => .error (.thrown networkErrorMsg)
  | .sendFailure m => .error (.thrown ("Request Error: " ++ m ++ ". Please check your request parameters and try again."))

/-- Body passed to axios: `data ? data : undefined`. -/
def normBody : Option Json → Option Json
  | some d => if d.truthy then some d else none
  | none => none

/-- Truthiness of an optional string argument (JS `if (x)` on a string
parameter that may be `undefined`). -/
def truthyOpt : Option String → Bool
  | none => false
  | some s => s != ""

/-- Admin-branch URL of `kongRequest`: endpoints of the `/v3` family strip
the `/v2` suffix from the admin base URL first. -/
def adminUrl (st : CState) (endpoint : String) : String :=
  (if endpoint.startsWith "/v3" then st.adminBaseUrl.replace "/v2" "" else st.adminBaseUrl)
    ++ endpoint

/-- Request issued by the admin branch of `kongRequest`. -/
def adminReqOf (st : CState) (endpoint method : String) (data : Option Json) : Request :=
  { method := method
    url := adminUrl st endpoint
    headers := baseHeaders ++ [("Authorization", "Bearer " ++ st.apiKey)]
    body := normBody data }

/-- Admin branch of `kongRequest` (bearer-token authentication against the
admin base URL); never touches the caches. -/
def adminRequest (w : World) (st : CState) (endpoint method : String) (data : Option Json) :
    Except KErr Json × List Request :=
  let req := adminReqOf st endpoint method data
  (handleTransport (w req), [req])

/-- Optional numeric query parameter appended only when JS-truthy
(`if (pageNumber) endpoint += ...`). -/
def optNumParam (key : String) : Option Nat → String
  | some n => if n ≠ 0 then "&" ++ key ++ "=" ++ toString n else ""
  | none => ""

/-- Optional string query parameter appended only when JS-truthy, with
`encodeURIComponent` applied to the value. -/
def optStrParam (key : String) : Option String → String
  | some s => if s ≠ "" then "&" ++ key ++ "=" ++ encodeURIComponent s else ""
  | none => ""

/-- Endpoint built by `listDevPortalPortals`. -/
def portalsEndpoint (pageSize : Nat) (pageNumber : Option Nat) : String :=
  "/v3/portals?page[size]=" ++ toString pageSize ++ optNumParam "page[number]" pageNumber

/-- `listDevPortalPortals`: always an admin-API call; the caches are untouched. -/
def listDevPortalPortals (w : World) (st : CState) (pageSize : Nat) (pageNumber : Option Nat) :
    Except KErr Json × List Request :=
  adminRequest w st (portalsEndpoint pageSize pageNumber) "GET" none

/-- Not-Found message thrown by `getPortalBaseUrl`. -/
def notFoundMsg (portalId : String) : String :=
  "Portal with ID " ++ portalId ++ " not found"

/-- Predicate of the linear scan `portals.data.find(p => p.id === portalId)`:
strict equality against a string holds only for an equal string field. -/
def portalIdMatches (portalId : String) (p : Json) : Bool :=
  match fieldOrUndefined p "id" with
  | .str s => s == portalId
  | _ => false

/-- Template rendering of `portal.canonical_domain` etc.: the field value
stringified, `undefined` when absent. -/
def jsFieldString (j : Json) (k : String) : String :=
  (fieldOrUndefined j k).display

/-- `getPortalBaseUrl`: return the memoized base URL when present; otherwise
issue one admin "list portals" call, scan its `data` array for the
identifier, and on a hit store `https://{canonical_domain}` before
returning it. A miss throws the Not-Found error; a body without a `data`
array raises the corresponding JS `TypeError`. Errors are logged and
re-thrown unchanged by its catch. -/
def getPortalBaseUrl (w : World) (st : CState) (portalId : String) : KOut String :=
  match lookupA st.portalBaseUrls portalId with
  | some url => (.ok url, st, [])
  | none =>
    match listDevPortalPortals w st 10 none with
    | (.error e, tr) => (.error e, st, tr)
    | (.ok portals, tr) =>
      if memberable portals then
        match fieldOrUndefined portals "data" with
        | .arr ps =>
          match ps.find? (portalIdMatches portalId) with
          | none => (.error (.thrown (notFoundMsg portalId)), st, tr)
          | some portal =>
            let baseUrl := "https://" ++ jsFieldString portal "canonical_domain"
            (.ok baseUrl,
             { st with portalBaseUrls := setA st.portalBaseUrls portalId baseUrl }, tr)
        | d =>
          (.error (.thrown ("TypeError: " ++ d.display ++ " has no method find")), st, tr)
      else
        (.error (.thrown "TypeError: Cannot read properties of null or undefined (reading \x27data\x27)"), st, tr)

/-- Endpoint rewrite of the portal branch of `kongRequest`: a `/v3` endpoint
not already under `/api/` is prefixed with `/api`. -/
def portalEndpointAdjust (endpoint : String) : String :=
  if !endpoint.startsWith "/api/" && endpoint.startsWith "/v3" then "/api" ++ endpoint
  else endpoint

/-- Cookie header chosen by the portal branch of `kongRequest`: an explicitly
supplied (truthy) `cookies` argument wins, else the cached session cookie
for the portal, else none. -/
def cookieChoice (st : CState) (portalId : String) (cookies : Option String) : Option String :=
  match cookies with
  | some c => if c != "" then some c else lookupA st.portalAuthCookies portalId
  | none => lookupA st.portalAuthCookies portalId

/-- Request issued by the portal branch of `kongRequest`, given the resolved
portal base URL. -/
def portalReqOf (st : CState) (portalBaseUrl : String) (portalId : String)
    (endpoint method : String) (data : Option Json) (cookies : Option String) : Request :=
  { method := method
    url := portalBaseUrl ++ portalEndpointAdjust endpoint
    headers := baseHeaders ++
      (match cookieChoice st portalId cookies with
       | some c => [("Cookie", c)]
       | none => [])
    body := normBody data }

/-- `kongRequest`: dispatch between the portal branch (when
`usePortalBaseUrl && portalId` is truthy) and the admin branch. An error
thrown by `getPortalBaseUrl` inside the try-block is a plain `Error`
without `response`/`request`, so the catch re-wraps it as a Request
Error. -/
def kongRequest (w : World) (st : CState) (endpoint method : String) (data : Option Json)
    (usePortalBaseUrl : Bool) (portalId : Option String) (cookies : Option String) :
    KOut Json :=
  match usePortalBaseUrl, portalId with
  | true, some pid =>
    if pid == "" then
      let (r, tr) := adminRequest w st endpoint method data
      (r, st, tr)
    else
      match getPortalBaseUrl w st pid with
      | (.error e, st', tr) => (.error (requestErrorWrap e), st', tr)
      | (.ok portalBaseUrl, st', tr) =>
        let req := portalReqOf st' portalBaseUrl pid endpoint method data cookies
        (handleTransport (w req), st', tr ++ [req])
  | _, _ =>
    let (r, tr) := adminRequest w st endpoint method data
    (r, st, tr)

/-- Regex match `/portalaccesstoken=([^;]+)/` on one cookie header: the
non-empty run of non-semicolon characters after the first occurrence of
`portalaccesstoken=`. -/
def tokenFromCookie (c : String) : Option String :=
  match restAfterSub c.data "portalaccesstoken=".data with
  | none => none
  | some rest =>
    let tok := rest.takeWhile (fun ch => ch != Char.ofNat 59)
    if tok.isEmpty then none else some (String.mk tok)

/-- Scan of the `set-cookie` headers in `authenticateDevPortalDeveloper`:
take the first cookie that contains `portalaccesstoken` and on which the
regex produces a non-empty capture; cookies that mention the name but do
not match are skipped. -/
def extractToken : List String → Option String
  | [] => none
  | c :: rest =>
    if strContains c "portalaccesstoken" then
      match tokenFromCookie c with
      | some tok => some tok
      | none => extractToken rest
    else extractToken rest

/-- First-truthy-of-two resolution (`a || b`) for string options. -/
def orTruthy : Option String → Option String → Option String
  | some s, b => if s == "" then b else some s
  | none, b => b

/-- Message thrown when neither arguments nor environment provide
developer credentials. -/
def credsErrMsg : String :=
  "Developer credentials not provided and not found in environment variables (DEV_PORTAL_USER, DEV_PORTAL_PASSWORD)"

/-- Fixed success object returned by `authenticateDevPortalDeveloper`. -/
def authSuccess : Json :=
  Json.obj
    [("authentication", Json.obj
        [("status", Json.str "success"),
         ("message", Json.str "Successfully authenticated with the developer portal")]),
     ("usage", Json.obj
        [("instructions", Json.str "You are now authenticated with the developer portal. You can use other Dev Portal tools without providing a portalAccessToken."),
         ("security", Json.str "Your authentication is stored in cookies managed by the API client.")])]

/-- Authentication endpoint path. -/
def authEndpoint : String := "/api/v3/developer/authenticate"

/-- Request issued by the direct axios call in
`authenticateDevPortalDeveloper`. -/
def authReqOf (portalBaseUrl : String) (username password : String) : Request :=
  { method := "POST"
    url := portalBaseUrl ++ authEndpoint
    headers := baseHeaders
    body := some (Json.obj [("username", Json.str username), ("password", Json.str password)]) }

/-- `authenticateDevPortalDeveloper`: resolve credentials (arguments over
environment), resolve the portal base URL, POST directly with
`validateStatus` accepting 2xx–3xx, scan the `set-cookie` headers for a
`portalaccesstoken` and cache `portalaccesstoken=<token>` for the portal
when found, then return the fixed success object. A rejected status or
transport failure re-throws the raw axios error; a resolution failure
re-throws the plain error unchanged. -/
def authenticateDevPortalDeveloper (w : World) (st : CState)
    (envUser envPass : Option String) (portalId : String)
    (username password : Option String) : KOut Json :=
  let developerUsername := orTruthy username envUser
  let developerPassword := orTruthy password envPass
  match developerUsername, developerPassword with
  | some u, some p =>
    if u == "" || p == "" then (.error (.thrown credsErrMsg), st, [])
    else
      match getPortalBaseUrl w st portalId with
      | (.error e, st', tr) => (.error e, st', tr)
      | (.ok portalBaseUrl, st', tr) =>
        let req := authReqOf portalBaseUrl u p
        match w req with
        | .response s _ setCookies =>
          if 200 ≤ s ∧ s < 400 then
            let st'' :=
              match extractToken setCookies with
              | some tok =>
                let cs := setA st'.portalAuthCookies portalId ("portalaccesstoken=" ++ tok)
                { st' with portalAuthCookies := cs }
              | none => st'
            (.ok authSuccess, st'', tr ++ [req])
          else
            (.error (.axiosErr (some s)), st', tr ++ [req])
        | .noResponse => (.error (.axiosErr none), st', tr ++ [req])
        | .sendFailure _ => (.error (.axiosErr none), st', tr ++ [req])
  | _, _ => (.error (.thrown credsErrMsg), st, [])

/-- Guard message of the portal-scoped operations; `what` names the
operation ("listing APIs", "creating applications", ...). -/
def guardMsg (what : String) : String :=
  "Portal ID is required for " ++ what ++ ". Use the list-portals tool to get a portal ID, then authenticate with that portal using authenticate-developer-portal."

/-- Cookie argument passed by every operation:
`portalAccessToken ? "portalaccesstoken=" + portalAccessToken : undefined`. -/
def portalTokenCookie : Option String → Option String
  | some t => if t != "" then some ("portalaccesstoken=" ++ t) else none
  | none => none

/-- Endpoint built by `listDevPortalApis`. -/
def listApisEndpoint (pageSize : Nat) (pageNumber : Option Nat) (filterName : Option String)
    (filterPublished : Option Bool) (sort : Option String) : String :=
  "/api/v3/apis?page[size]=" ++ toString pageSize
    ++ optNumParam "page[number]" pageNumber
    ++ optStrParam "filter[name][contains]" filterName
    ++ (match filterPublished with
        | some b => "&filter[published]=" ++ (if b then "true" else "false")
        | none => "")
    ++ optStrParam "sort" sort

/-- `listDevPortalApis`: requires a truthy portal identifier before any
network call, then a GET against the portal base URL. -/
def listDevPortalApis (w : World) (st : CState) (pageSize : Nat) (pageNumber : Option Nat)
    (filterName : Option String) (filterPublished : Option Bool) (sort : Option String)
    (portalId : Option String) (portalAccessToken : Option String) : KOut Json :=
  if truthyOpt portalId then
    kongRequest w st (listApisEndpoint pageSize pageNumber filterName filterPublished sort)
      "GET" none true portalId (portalTokenCookie portalAccessToken)
  else (.error (.thrown (guardMsg "listing APIs")), st, [])

/-- `createDevPortalApplication`: requires a truthy portal identifier, then a
POST of the name/description body; the upstream body is returned as-is. -/
def createDevPortalApplication (w : World) (st : CState) (name description : String)
    (portalId : Option String) (portalAccessToken : Option String) : KOut Json :=
  if truthyOpt portalId then
    kongRequest w st "/api/v3/applications" "POST"
      (some (Json.obj [("name", Json.str name), ("description", Json.str description)]))
      true portalId (portalTokenCookie portalAccessToken)
  else (.error (.thrown (guardMsg "creating applications")), st, [])

/-- Endpoint built by `listDevPortalApplications`. -/
def listApplicationsEndpoint (pageSize : Nat) (pageNumber : Option Nat)
    (filterName : Option String) (sort : Option String) : String :=
  "/api/v3/applications?page[size]=" ++ toString pageSize
    ++ optNumParam "page[number]" pageNumber
    ++ optStrParam "filter[name][contains]" filterName
    ++ optStrParam "sort" sort

/-- `listDevPortalApplications`: builds the endpoint, then requires a truthy
portal identifier before the network call. -/
def listDevPortalApplications (w : World) (st : CState) (pageSize : Nat)
    (pageNumber : Option Nat) (filterName : Option String) (sort : Option String)
    (portalId : Option String) (portalAccessToken : Option String) : KOut Json :=
  let endpoint := listApplicationsEndpoint pageSize pageNumber filterName sort
  if truthyOpt portalId then
    kongRequest w st endpoint "GET" none true portalId (portalTokenCookie portalAccessToken)
  else (.error (.thrown (guardMsg "listing applications")), st, [])

/-- Reshape of the subscription-create response; member access on a
`null`/`undefined` body raises the JS `TypeError`. -/
def subCreateReshape (response : Json) : Except KErr Json :=
  if memberable response then
    .ok (Json.obj
      [("subscription", Json.obj
        [("subscriptionId", fieldOrUndefined response "id"),
         ("apiId", fieldOrUndefined response "api_id"),
         ("apiName", fieldOrUndefined response "api_name"),
         ("applicationId", fieldOrUndefined response "application_id"),
         ("status", fieldOrUndefined response "status"),
         ("metadata", Json.obj
           [("created_at", fieldOrUndefined response "created_at"),
            ("updated_at", fieldOrUndefined response "updated_at")])])])
  else .error (.thrown "TypeError: Cannot read properties of null or undefined (reading \x27id\x27)")

/-- `createDevPortalSubscription`: requires a truthy portal identifier, POSTs
`{api_id}` to the application's registrations endpoint, and reshapes the
response into the consistent `subscription` wrapper. -/
def createDevPortalSubscription (w : World) (st : CState) (apiId applicationId : String)
    (portalId : Option String) (portalAccessToken : Option String) : KOut Json :=
  if truthyOpt portalId then
    let endpoint := "/api/v3/applications/" ++ applicationId ++ "/registrations"
    match kongRequest w st endpoint "POST" (some (Json.obj [("api_id", Json.str apiId)]))
      true portalId (portalTokenCookie portalAccessToken) with
    | (.error e, st', tr) => (.error e, st', tr)
    | (.ok response, st', tr) =>
      match subCreateReshape response with
      | .error e => (.error e, st', tr)
      | .ok j => (.ok j, st', tr)
  else (.error (.thrown (guardMsg "creating subscriptions")), st, [])

/-- Endpoint built by `listDevPortalSubscriptions`. -/
def listSubscriptionsEndpoint (applicationId : Option String) (apiId : Option String)
    (pageSize : Nat) (pageNumber : Option Nat) (status : Option String)
    (sort : Option String) : String :=
  (match applicationId with
   | some appId =>
     if appId != "" then "/api/v3/applications/" ++ appId ++ "/registrations?page[size]=" ++ toString pageSize
     else "/api/v3/registrations?page[size]=" ++ toString pageSize
   | none => "/api/v3/registrations?page[size]=" ++ toString pageSize)
    ++ optNumParam "page[number]" pageNumber
    ++ (match apiId with
        | some a => if a != "" then "&filter[api_id][eq]=" ++ a else ""
        | none => "")
    ++ (match status with
        | some s => if s != "" then "&filter[status][eq]=" ++ s else ""
        | none => "")
    ++ optStrParam "sort" sort

/-- Reshape of one element of the subscriptions listing. -/
def subsItemReshape (item : Json) : Except KErr Json :=
  if memberable item then
    .ok (Json.obj
      [("subscription", Json.obj
        [("subscriptionId", fieldOrUndefined item "id"),
         ("apiId", fieldOrUndefined item "api_id"),
         ("apiName", fieldOrUndefined item "api_name"),
         ("applicationId", fieldOrUndefined item "application_id"),
         ("status", fieldOrUndefined item "status"),
         ("metadata", Json.obj
           [("created_at", fieldOrUndefined item "created_at"),
            ("updated_at", fieldOrUndefined item "updated_at")])])])
  else .error (.thrown "TypeError: Cannot read properties of null or undefined (reading \x27id\x27)")

/-- `Array.prototype.map` over the listing elements, stopping at the first
raised `TypeError`. -/
def mapReshape : List Json → Except KErr (List Json)
  | [] => .ok []
  | item :: rest =>
    match subsItemReshape item with
    | .error e => .error e
    | .ok j =>
      match mapReshape rest with
      | .error e => .error e
      | .ok js => .ok (j :: js)

/-- `listDevPortalSubscriptions`: requires a truthy portal identifier, GETs
the registrations endpoint, and maps the `data` array into the consistent
shape (`response.data.map` raises a `TypeError` on a non-array). -/
def listDevPortalSubscriptions (w : World) (st : CState) (applicationId apiId : Option String)
    (pageSize : Nat) (pageNumber : Option Nat) (status : Option String) (sort : Option String)
    (portalId : Option String) (portalAccessToken : Option String) : KOut Json :=
  if truthyOpt portalId then
    let endpoint := listSubscriptionsEndpoint applicationId apiId pageSize pageNumber status sort
    match kongRequest w st endpoint "GET" none true portalId (portalTokenCookie portalAccessToken) with
    | (.error e, st', tr) => (.error e, st', tr)
    | (.ok response, st', tr) =>
      if memberable response then
        match fieldOrUndefined response "data" with
        | .arr items =>
          match mapReshape items with
          | .error e => (.error e, st', tr)
          | .ok js =>
            (.ok (Json.obj [("meta", fieldOrUndefined response "meta"), ("data", Json.arr js)]), st', tr)
        | d => (.error (.thrown ("TypeError: " ++ d.display ++ " has no method map")), st', tr)
      else
        (.error (.thrown "TypeError: Cannot read properties of null or undefined (reading \x27meta\x27)"), st', tr)
  else (.error (.thrown (guardMsg "listing subscriptions")), st, [])

/-- Default meta object of the specification early return. -/
def defaultSpecMeta : Json :=
  Json.obj [("page", Json.obj [("size", Json.num 0), ("total", Json.num 0), ("number", Json.num 1)])]

/-- Discovery endpoint of `getDevPortalApiSpecifications`. -/
def specListEndpoint (apiId : String) : String :=
  "/api/v3/apis/" ++ apiId ++ "/specifications"

/-- Per-specification fetch endpoint (the loop body's template, including JS
stringification of `spec.id`). -/
def specFetchEndpoint (apiId : String) (spec : Json) : String :=
  "/api/v3/apis/" ++ apiId ++ "/specifications/" ++ jsFieldString spec "id"

/-- Sequential content-fetch loop of `getDevPortalApiSpecifications`: one GET
per discovered element, in order, pushing `{id, type, content}` and
stopping at the first thrown error. -/
def specLoop (w : World) (apiId : String) (portalId portalAccessToken : Option String)
    (meta : Json) :
    CState → List Json → List Json → List Request → KOut Json
  | st, [], acc, tr => (.ok (Json.obj [("data", Json.arr acc), ("meta", meta)]), st, tr)
  | st, spec :: rest, acc, tr =>
    if memberable spec then
      match kongRequest w st (specFetchEndpoint apiId spec) "GET" none true portalId
        (portalTokenCookie portalAccessToken) with
      | (.error e, st', tr') => (.error e, st', tr ++ tr')
      | (.ok specContent, st', tr') =>
        if memberable specContent then
          specLoop w apiId portalId portalAccessToken meta st' rest
            (acc ++ [Json.obj [("id", fieldOrUndefined spec "id"),
                              ("type", fieldOrUndefined spec "type"),
                              ("content", fieldOrUndefined specContent "content")]])
            (tr ++ tr')
        else
          (.error (.thrown "TypeError: Cannot read properties of null or undefined (reading \x27content\x27)"),
           st', tr ++ tr')
    else
      (.error (.thrown "TypeError: Cannot read properties of null or undefined (reading \x27id\x27)"),
       st, tr)

/-- `getDevPortalApiSpecifications`: requires a truthy portal identifier,
issues the discovery GET, returns `{data: [], meta}` immediately when the
body is falsy or its `data` member is falsy or not an array, and otherwise
fetches the content of each discovered specification in order. -/
def getDevPortalApiSpecifications (w : World) (st : CState) (apiId : String)
    (portalId portalAccessToken : Option String) : KOut Json :=
  if truthyOpt portalId then
    match kongRequest w st (specListEndpoint apiId) "GET" none true portalId
      (portalTokenCookie portalAccessToken) with
    | (.error e, st', tr) => (.error e, st', tr)
    | (.ok specList, st', tr) =>
      let dataField := if memberable specList then fieldOrUndefined specList "data" else Json.undefined
      if specList.truthy == false || dataField.truthy == false || dataField.isArr == false then
        let metaRaw := if memberable specList then fieldOrUndefined specList "meta" else Json.undefined
        let meta := if metaRaw.truthy then metaRaw else defaultSpecMeta
        (.ok (Json.obj [("data", Json.arr []), ("meta", meta)]), st', tr)
      else
        specLoop w apiId portalId portalAccessToken (fieldOrUndefined specList "meta")
          st' dataField.elems [] tr
  else (.error (.thrown (guardMsg "getting API specifications")), st, [])

/-- `createDevPortalApiKey`: requires a truthy portal identifier, then POSTs
the display name (and `expires_in` when truthy) to the credentials
endpoint. -/
def createDevPortalApiKey (w : World) (st : CState) (applicationId name : String)
    (expiresIn : Option Nat) (portalId portalAccessToken : Option String) : KOut Json :=
  if truthyOpt portalId then
    let endpoint := "/api/v3/applications/" ++ applicationId ++ "/credentials"
    let data := Json.obj
      ([("display_name", Json.str name)] ++
        (match expiresIn with
         | some n => if n ≠ 0 then [("expires_in", Json.num (Int.ofNat n))] else []
         | none => []))
    kongRequest w st endpoint "POST" (some data) true portalId (portalTokenCookie portalAccessToken)
  else (.error (.thrown (guardMsg "generating API keys")), st, [])

/-- Reshape performed by the `subscribeToApi` handler on the value returned
by `createDevPortalSubscription`. -/
def subscribeToApiReshape (result : Json) : Except KErr Json :=
  if memberable result then
    .ok (Json.obj
      [("subscription", Json.obj
        [("subscriptionId", fieldOrUndefined result "id"),
         ("apiId", fieldOrUndefined result "api_id"),
         ("apiName", fieldOrUndefined result "api_name"),
         ("applicationId", fieldOrUndefined result "application_id"),
         ("applicationName", fieldOrUndefined result "application_name"),
         ("status", fieldOrUndefined result "status"),
         ("metadata", Json.obj
           [("createdAt", fieldOrUndefined result "created_at"),
            ("updatedAt", fieldOrUndefined result "updated_at")])]),
       ("relatedTools", Json.arr
         [Json.str "Use generate-api-key to generate an API key for this subscription",
          Json.str "Use list-apis to find more APIs to subscribe to"])])
  else .error (.thrown "TypeError: Cannot read properties of null or undefined (reading \x27id\x27)")

/-- Handler `subscribeToApi` (operations/devPortal.ts): when the supplied
application identifier is the sentinel `"new"` and a truthy `appName` is
given, first create the application and use the `id` of its response for
the subscription; otherwise subscribe directly with the supplied
identifier (including the literal `"new"` when `appName` is absent). Any
error is re-thrown unchanged. -/
def subscribeToApi (w : World) (st : CState) (apiId applicationId : String)
    (appName appDescription : Option String)
    (portalId portalAccessToken : Option String) : KOut Json :=
  if applicationId == "new" && truthyOpt appName then
    match createDevPortalApplication w st (appName.getD "") (appDescription.getD "")
      portalId portalAccessToken with
    | (.error e, st1, tr1) => (.error e, st1, tr1)
    | (.ok newApp, st1, tr1) =>
      if memberable newApp then
        let finalApplicationId := jsFieldString newApp "id"
        match createDevPortalSubscription w st1 apiId finalApplicationId portalId portalAccessToken with
        | (.error e, st2, tr2) => (.error e, st2, tr1 ++ tr2)
        | (.ok result, st2, tr2) =>
          match subscribeToApiReshape result with
          | .error e => (.error e, st2, tr1 ++ tr2)
          | .ok j => (.ok j, st2, tr1 ++ tr2)
      else
        (.error (.thrown "TypeError: Cannot read properties of null or undefined (reading \x27id\x27)"),
         st1, tr1)
  else
    match createDevPortalSubscription w st apiId applicationId portalId portalAccessToken with
    | (.error e, st2, tr2) => (.error e, st2, tr2)
    | (.ok result, st2, tr2) =>
      match subscribeToApiReshape result with
      | .error e => (.error e, st2, tr2)
      | .ok j => (.ok j, st2, tr2)

/-- Admin "list portals" request issued by `getPortalBaseUrl` (default page
size 10, no page number). -/
def portalsListReq (st : CState) : Request :=
  adminReqOf st (portalsEndpoint 10 none) "GET" none

/-- Projection used in claim statements: the `data` field of a successful
result. -/
def okDataField : Except KErr Json → Option Json
  | .ok j => some (fieldOrUndefined j "data")
  | .error _ => none

lemma lookupA_map_set (m : List (String × String)) (k v : String)
    (h : (m.find? (fun p => p.1 == k)).isSome = true) :
    lookupA (m.map (fun p => if p.1 == k then (k, v) else p)) k = some v := by
  induction m with
  | nil => simp at h
  | cons hd tl ih =>
    by_cases hk : hd.1 = k
    · simp [lookupA, List.find?_cons, hk]
    · have hk' : (hd.1 == k) = false := by simp [hk]
      rw [List.find?_cons_of_neg _ (by simp [hk])] at h
      simpa [lookupA, List.find?_cons, hk', hk] using ih h

lemma lookupA_append_set (m : List (String × String)) (k v : String)
    (h : m.find? (fun p => p.1 == k) = none) :
    lookupA (m ++ [(k, v)]) k = some v := by
  induction m with
  | nil => simp [lookupA]
  | cons hd tl ih =>
    rw [List.find?_cons] at h
    cases hk : (hd.1 == k) with
    | true => rw [hk] at h; simp at h
    | false =>
      rw [hk] at h
      simp only [lookupA, List.cons_append, List.find?_cons, hk] at ih ⊢
      exact ih h

lemma lookupA_setA_self (m : List (String × String)) (k v : String) :
    lookupA (setA m k v) k = some v := by
  unfold setA
  cases hf : List.find? (fun p => p.1 == k) m with
  | some p =>
    simp only [hf, Option.isSome_some, if_true]
    exact lookupA_map_set m k v (by simp [hf])
  | none =>
    simp only [hf, Option.isSome_none, Bool.false_eq_true, if_false]
    exact lookupA_append_set m k v hf

lemma obj_of_field {j : Json} {k : String} {v : Json}
    (h : fieldOrUndefined j k = v) (hv : v ≠ Json.undefined) : ∃ fs, j = Json.obj fs := by
  cases j <;> simp_all [fieldOrUndefined]

lemma tokenFromCookie_of_not_contains {c : String}
    (h : strContains c "portalaccesstoken" = false) : tokenFromCookie c = none := by
  unfold tokenFromCookie
  suffices hs : restAfterSub c.data "portalaccesstoken=".data = none by simp [hs]
  unfold strContains at h
  generalize c.data = cs at h ⊢
  induction cs with
  | nil => simp [restAfterSub]
  | cons hd tl ih =>
    unfold charsContain at h
    simp only [Bool.or_eq_false_iff] at h
    have hlead : charsLeadWith "portalaccesstoken=".data (hd :: tl) = false := by
      have := h.1
      revert this
      generalize hd :: tl = xs
      intro hx
      have : ∀ (p q : List Char) (r : Char), charsLeadWith p q = false →
          charsLeadWith (p ++ [r]) q = false := by
        intro p
        induction p with
        | nil => intro q r hq; simp [charsLeadWith] at hq
        | cons ph pt ihp =>
          intro q r hq
          cases q with
          | nil => simp [charsLeadWith]
          | cons qh qt =>
            simp only [charsLeadWith, List.cons_append, Bool.and_eq_false_iff] at hq ⊢
            rcases hq with hq | hq
            · exact Or.inl hq
            · exact Or.inr (ihp qt r hq)
      exact this "portalaccesstoken".data xs (Char.ofNat 61) hx
    unfold restAfterSub
    simp [hlead, ih h.2]

lemma extractToken_eq (sc : List String) (t : String)
    (hex : ∃ ck ∈ sc, strContains ck "portalaccesstoken" = true ∧ tokenFromCookie ck = some t)
    (huniq : ∀ ck ∈ sc, ∀ u, tokenFromCookie ck = some u → u = t) :
    extractToken sc = some t := by
  induction sc with
  | nil => simp at hex
  | cons c rest ih =>
    unfold extractToken
    by_cases hm : strContains c "portalaccesstoken" = true
    · simp only [hm, if_true]
      cases hp : tokenFromCookie c with
      | some tok =>
        have := huniq c (List.mem_cons_self c rest) tok hp
        simp [this]
      | none =>
        apply ih
        · obtain ⟨ck, hck, hmk, hpk⟩ := hex
          rcases List.mem_cons.mp hck with h | h
          · subst h
            rw [hp] at hpk
            exact absurd hpk (by simp)
          · exact ⟨ck, h, hmk, hpk⟩
        · intro ck hck u hu
          exact huniq ck (List.mem_cons_of_mem c hck) u hu
    · simp only [hm, if_false]
      apply ih
      · obtain ⟨ck, hck, hmk, hpk⟩ := hex
        rcases List.mem_cons.mp hck with h | h
        · subst h
          exact absurd hmk hm
        · exact ⟨ck, h, hmk, hpk⟩
      · intro ck hck u hu
        exact huniq ck (List.mem_cons_of_mem c hck) u hu

lemma extractToken_none (sc : List String)
    (h : ∀ ck ∈ sc, strContains ck "portalaccesstoken" = false) :
    extractToken sc = none := by
  induction sc with
  | nil => rfl
  | cons c rest ih =>
    unfold extractToken
    have hc := h c (List.mem_cons_self c rest)
    simp only [hc]
    exact ih (fun ck hck => h ck (List.mem_cons_of_mem c hck))

lemma kongRequest_cachedPortal (w : World) (st : CState) (p base endpoint method : String)
    (data : Option Json) (cookies : Option String)
    (hp : p ≠ "") (hbase : lookupA st.portalBaseUrls p = some base) :
    kongRequest w st endpoint method data true (some p) cookies =
      (handleTransport (w (portalReqOf st base p endpoint method data cookies)), st,
       [portalReqOf st base p endpoint method data cookies]) := by
  unfold kongRequest
  have hp' : (p == "") = false := by simp [hp]
  simp only [hp', if_false]
  unfold getPortalBaseUrl
  simp [hbase]

lemma getPortalBaseUrl_miss (w : World) (st : CState) (pid : String) (s : Nat)
    (body : Json) (sc : List String) (ps : List Json)
    (hmiss : lookupA st.portalBaseUrls pid = none)
    (hresp : w (portalsListReq st) = .response s body sc)
    (hs1 : 200 ≤ s) (hs2 : s < 300) (hs3 : s ≠ 204)
    (hdata : fieldOrUndefined body "data" = Json.arr ps)
    (habsent : ∀ p ∈ ps, portalIdMatches pid p = false) :
    getPortalBaseUrl w st pid =
      (.error (.thrown ("Portal with ID " ++ pid ++ " not found")), st, [portalsListReq st]) := by
  obtain ⟨fs, hobj⟩ := obj_of_field hdata (by simp)
  have hfind : ps.find? (portalIdMatches pid) = none :=
    List.find?_eq_none.mpr (fun p hp => by simp [habsent p hp])
  have hresp' : w (adminReqOf st (portalsEndpoint 10 none) "GET" none) = .response s body sc := hresp
  subst hobj
  simp [getPortalBaseUrl, listDevPortalPortals, adminRequest, portalsListReq, handleTransport,
        hmiss, hresp', hs1, hs2, hs3, memberable, hdata, hfind, notFoundMsg]

/-- C1: for every portal identifier that is not cached and not present in the
`data` array returned by the admin "list portals" call, `getPortalBaseUrl`
throws the error "Portal with ID ... not found" and the whole client state —
in particular the `portalBaseUrls` map — is exactly the same after the failed
call as before it; the only upstream call is the admin listing. (Cached
identifiers always originate from the listing, so against a fixed upstream
the cache-miss hypothesis is implied by absence from the listing.) -/
theorem C1_notFound_cache_unchanged (w : World) (st : CState) (pid : String) (s : Nat)
    (body : Json) (sc : List String) (ps : List Json)
    (hmiss : lookupA st.portalBaseUrls pid = none)
    (hresp : w (portalsListReq st) = .response s body sc)
    (hs1 : 200 ≤ s) (hs2 : s < 300) (hs3 : s ≠ 204)
    (hdata : fieldOrUndefined body "data" = Json.arr ps)
    (habsent : ∀ p ∈ ps, portalIdMatches pid p = false) :
    getPortalBaseUrl w st pid =
      (.error (.thrown ("Portal with ID " ++ pid ++ " not found")), st, [portalsListReq st]) :=
  getPortalBaseUrl_miss w st pid s body sc ps hmiss hresp hs1 hs2 hs3 hdata habsent

/-- Client state fixture used by the witnesses: constructor defaults with an
empty cache. -/
def cSt : CState :=
  { adminBaseUrl := "https://us.api.konghq.com/v2", apiKey := "KEY",
    portalBaseUrls := [], portalAuthCookies := [] }

/-- World whose admin listing has an empty `data` array. -/
def emptyListingWorld : World :=
  fun _ => Transport.response 200 (Json.obj [("data", Json.arr [])]) []

theorem C1_witness :
    getPortalBaseUrl emptyListingWorld cSt "p9" =
      (.error (.thrown ("Portal with ID " ++ "p9" ++ " not found")), cSt, [portalsListReq cSt]) :=
  C1_notFound_cache_unchanged emptyListingWorld cSt "p9" 200
    (Json.obj [("data", Json.arr [])]) [] [] rfl rfl (by decide) (by decide) (by decide) rfl
    (by intro p hp; simp at hp)

/-- C10: portal resolution inspects only the single page returned by
`listDevPortalPortals` with its defaults — the request issued is exactly the
`page[size]=10`, first-page admin request — so an identifier that is present
in the full admin collection but beyond the first default page is rejected
with precisely the Not-Found error of a nonexistent portal. -/
theorem C10_first_page_only (w : World) (st : CState) (pid : String) (s : Nat)
    (body : Json) (sc : List String) (allPs : List Json)
    (hmiss : lookupA st.portalBaseUrls pid = none)
    (hresp : w (portalsListReq st) = .response s body sc)
    (hs1 : 200 ≤ s) (hs2 : s < 300) (hs3 : s ≠ 204)
    (hdata : fieldOrUndefined body "data" = Json.arr (allPs.take 10))
    (_hpresent : ∃ p ∈ allPs, portalIdMatches pid p = true)
    (hpage : ∀ p ∈ allPs.take 10, portalIdMatches pid p = false) :
    getPortalBaseUrl w st pid =
      (.error (.thrown ("Portal with ID " ++ pid ++ " not found")), st, [portalsListReq st]) :=
  getPortalBaseUrl_miss w st pid s body sc (allPs.take 10) hmiss hresp hs1 hs2 hs3 hdata hpage

/-- Eleven-portal admin collection; `portal10` only appears beyond the first
page of ten. -/
def elevenPortals : List Json :=
  (List.range 11).map (fun i =>
    Json.obj [("id", Json.str ("portal" ++ toString i)),
              ("canonical_domain", Json.str ("d" ++ toString i ++ ".example"))])

/-- World serving the first default page of `elevenPortals`. -/
def pagedWorld : World :=
  fun _ => Transport.response 200 (Json.obj [("data", Json.arr (elevenPortals.take 10))]) []

theorem C10_witness :
    getPortalBaseUrl pagedWorld cSt "portal10" =
      (.error (.thrown ("Portal with ID " ++ "portal10" ++ " not found")), cSt, [portalsListReq cSt]) :=
  C10_first_page_only pagedWorld cSt "portal10" 200
    (Json.obj [("data", Json.arr (elevenPortals.take 10))]) [] elevenPortals
    rfl rfl (by decide) (by decide) (by decide) rfl
    (by decide) (by decide)

/-- C3: resolving an uncached identifier that is present in the admin listing
issues exactly one admin "list portals" call and stores
`https://{canonical_domain}` in `portalBaseUrls`; resolving it again is served
from the cache with the same URL and no upstream call at all. -/
theorem C3_memoized_resolution (w : World) (st : CState) (pid : String) (s : Nat)
    (body : Json) (sc : List String) (ps : List Json) (portal : Json) (dom : String)
    (hmiss : lookupA st.portalBaseUrls pid = none)
    (hresp : w (portalsListReq st) = .response s body sc)
    (hs1 : 200 ≤ s) (hs2 : s < 300) (hs3 : s ≠ 204)
    (hdata : fieldOrUndefined body "data" = Json.arr ps)
    (hfind : ps.find? (portalIdMatches pid) = some portal)
    (hdom : jsFieldString portal "canonical_domain" = dom) :
    getPortalBaseUrl w st pid =
      (.ok ("https://" ++ dom),
       { st with portalBaseUrls := setA st.portalBaseUrls pid ("https://" ++ dom) },
       [portalsListReq st]) ∧
    getPortalBaseUrl w
        { st with portalBaseUrls := setA st.portalBaseUrls pid ("https://" ++ dom) } pid =
      (.ok ("https://" ++ dom),
       { st with portalBaseUrls := setA st.portalBaseUrls pid ("https://" ++ dom) },
       []) := by
  obtain ⟨fs, hobj⟩ := obj_of_field hdata (by simp)
  have hresp' : w (adminReqOf st (portalsEndpoint 10 none) "GET" none) = .response s body sc := hresp
  constructor
  · subst hobj hdom
    simp [getPortalBaseUrl, listDevPortalPortals, adminRequest, portalsListReq, handleTransport,
          hmiss, hresp', hs1, hs2, hs3, memberable, hdata, hfind]
  · unfold getPortalBaseUrl
    rw [lookupA_setA_self]

theorem C3_witness :
    getPortalBaseUrl pagedWorld cSt "portal3" =
      (.ok ("https://" ++ "d3.example"),
       { cSt with portalBaseUrls := setA cSt.portalBaseUrls "portal3" ("https://" ++ "d3.example") },
       [portalsListReq cSt]) ∧
    getPortalBaseUrl pagedWorld
        { cSt with portalBaseUrls := setA cSt.portalBaseUrls "portal3" ("https://" ++ "d3.example") } "portal3" =
      (.ok ("https://" ++ "d3.example"),
       { cSt with portalBaseUrls := setA cSt.portalBaseUrls "portal3" ("https://" ++ "d3.example") },
       []) :=
  C3_memoized_resolution pagedWorld cSt "portal3" 200
    (Json.obj [("data", Json.arr (elevenPortals.take 10))]) [] (elevenPortals.take 10)
    (Json.obj [("id", Json.str "portal3"), ("canonical_domain", Json.str "d3.example")])
    "d3.example" rfl rfl (by decide) (by decide) (by decide) rfl (by rfl)
    (by simp [jsFieldString, fieldOrUndefined, Json.display])

/-- C8: a delivered `204` response makes `kongRequest` return `{success: true}`
independently of whatever body value the transport carried (it is never
inspected, i.e. never parsed), while every other delivered 2xx status returns
the parsed body unmodified; both on the admin branch and on the portal branch
with a cached base URL. The state is untouched and exactly one request is
issued in each case. -/
theorem C8_response_handling (w1 w2 w3 w4 : World) (st : CState) (e m p base : String)
    (d : Option Json) (cookies : Option String)
    (b1 : Json) (sc1 : List String) (s2 : Nat) (b2 : Json) (sc2 : List String)
    (b3 : Json) (sc3 : List String) (s4 : Nat) (b4 : Json) (sc4 : List String)
    (h1 : w1 (adminReqOf st e m d) = .response 204 b1 sc1)
    (h2 : w2 (adminReqOf st e m d) = .response s2 b2 sc2)
    (hs2a : 200 ≤ s2) (hs2b : s2 < 300) (hs2c : s2 ≠ 204)
    (hp : p ≠ "") (hbase : lookupA st.portalBaseUrls p = some base)
    (h3 : w3 (portalReqOf st base p e m d cookies) = .response 204 b3 sc3)
    (h4 : w4 (portalReqOf st base p e m d cookies) = .response s4 b4 sc4)
    (hs4a : 200 ≤ s4) (hs4b : s4 < 300) (hs4c : s4 ≠ 204) :
    kongRequest w1 st e m d false none none = (.ok successJson, st, [adminReqOf st e m d]) ∧
    kongRequest w2 st e m d false none none = (.ok b2, st, [adminReqOf st e m d]) ∧
    kongRequest w3 st e m d true (some p) cookies =
      (.ok successJson, st, [portalReqOf st base p e m d cookies]) ∧
    kongRequest w4 st e m d true (some p) cookies =
      (.ok b4, st, [portalReqOf st base p e m d cookies]) := by
  refine ⟨?_, ?_, ?_, ?_⟩
  · simp [kongRequest, adminRequest, handleTransport, h1]
  · simp [kongRequest, adminRequest, handleTransport, h2, hs2a, hs2b, hs2c]
  · rw [kongRequest_cachedPortal w3 st p base e m d cookies hp hbase]
    simp [handleTransport, h3]
  · rw [kongRequest_cachedPortal w4 st p base e m d cookies hp hbase]
    simp [handleTransport, h4, hs4a, hs4b, hs4c]

/-- State fixture with one resolved portal base URL. -/
def cStCached : CState :=
  { adminBaseUrl := "https://us.api.konghq.com/v2", apiKey := "KEY",
    portalBaseUrls := [("p1", "https://p1.portal.example")], portalAuthCookies := [] }

/-- World answering 204 with a `null` body. -/
def noContentWorld : World := fun _ => Transport.response 204 Json.null []

/-- World answering 200 with a fixed object body. -/
def okBodyWorld : World := fun _ => Transport.response 200 (Json.obj [("x", Json.num 1)]) []

theorem C8_witness :
    kongRequest noContentWorld cStCached "/v3/apis" "GET" none false none none =
      (.ok successJson, cStCached, [adminReqOf cStCached "/v3/apis" "GET" none]) ∧
    kongRequest okBodyWorld cStCached "/v3/apis" "GET" none false none none =
      (.ok (Json.obj [("x", Json.num 1)]), cStCached, [adminReqOf cStCached "/v3/apis" "GET" none]) ∧
    kongRequest noContentWorld cStCached "/v3/apis" "GET" none true (some "p1") none =
      (.ok successJson, cStCached,
       [portalReqOf cStCached "https://p1.portal.example" "p1" "/v3/apis" "GET" none none]) ∧
    kongRequest okBodyWorld cStCached "/v3/apis" "GET" none true (some "p1") none =
      (.ok (Json.obj [("x", Json.num 1)]), cStCached,
       [portalReqOf cStCached "https://p1.portal.example" "p1" "/v3/apis" "GET" none none]) :=
  C8_response_handling noContentWorld okBodyWorld noContentWorld okBodyWorld cStCached
    "/v3/apis" "GET" "p1" "https://p1.portal.example" none none
    Json.null [] 200 (Json.obj [("x", Json.num 1)]) [] Json.null [] 200
    (Json.obj [("x", Json.num 1)]) []
    rfl rfl (by decide) (by decide) (by decide) (by decide) rfl rfl rfl
    (by decide) (by decide) (by decide)

/-- C4: each of the seven portal-scoped operations called without a truthy
portal identifier throws its descriptive "Portal ID is required ..." error
with an unchanged state and an empty request trace (no upstream call), while
`listDevPortalPortals` — which takes no portal identifier — proceeds and
issues exactly its admin listing request. -/
theorem C4_guards_before_network (w : World) (st : CState) (portalId : Option String)
    (tok fn so status appId apiId : Option String) (fp : Option Bool)
    (ps : Nat) (pn : Option Nat) (nm ds aid : String) (exp : Option Nat)
    (hpid : truthyOpt portalId = false) :
    listDevPortalApis w st ps pn fn fp so portalId tok =
      (.error (.thrown (guardMsg "listing APIs")), st, []) ∧
    createDevPortalApplication w st nm ds portalId tok =
      (.error (.thrown (guardMsg "creating applications")), st, []) ∧
    listDevPortalApplications w st ps pn fn so portalId tok =
      (.error (.thrown (guardMsg "listing applications")), st, []) ∧
    createDevPortalSubscription w st aid nm portalId tok =
      (.error (.thrown (guardMsg "creating subscriptions")), st, []) ∧
    listDevPortalSubscriptions w st appId apiId ps pn status so portalId tok =
      (.error (.thrown (guardMsg "listing subscriptions")), st, []) ∧
    getDevPortalApiSpecifications w st aid portalId tok =
      (.error (.thrown (guardMsg "getting API specifications")), st, []) ∧
    createDevPortalApiKey w st aid nm exp portalId tok =
      (.error (.thrown (guardMsg "generating API keys")), st, []) ∧
    (listDevPortalPortals w st 10 none).2 = [portalsListReq st] := by
  refine ⟨?_, ?_, ?_, ?_, ?_, ?_, ?_, ?_⟩
  · simp [listDevPortalApis, hpid]
  · simp [createDevPortalApplication, hpid]
  · simp [listDevPortalApplications, hpid]
  · simp [createDevPortalSubscription, hpid]
  · simp [listDevPortalSubscriptions, hpid]
  · simp [getDevPortalApiSpecifications, hpid]
  · simp [createDevPortalApiKey, hpid]
  · rfl

theorem C4_witness :
    listDevPortalApis emptyListingWorld cSt 10 none none none none none none =
      (.error (.thrown (guardMsg "listing APIs")), cSt, []) ∧
    createDevPortalApplication emptyListingWorld cSt "App" "d" none none =
      (.error (.thrown (guardMsg "creating applications")), cSt, []) ∧
    listDevPortalApplications emptyListingWorld cSt 10 none none none none none =
      (.error (.thrown (guardMsg "listing applications")), cSt, []) ∧
    createDevPortalSubscription emptyListingWorld cSt "a1" "App" none none =
      (.error (.thrown (guardMsg "creating subscriptions")), cSt, []) ∧
    listDevPortalSubscriptions emptyListingWorld cSt none none 10 none none none none none =
      (.error (.thrown (guardMsg "listing subscriptions")), cSt, []) ∧
    getDevPortalApiSpecifications emptyListingWorld cSt "a1" none none =
      (.error (.thrown (guardMsg "getting API specifications")), cSt, []) ∧
    createDevPortalApiKey emptyListingWorld cSt "a1" "App" none none none =
      (.error (.thrown (guardMsg "generating API keys")), cSt, []) ∧
    (listDevPortalPortals emptyListingWorld cSt 10 none).2 = [portalsListReq cSt] :=
  C4_guards_before_network emptyListingWorld cSt none none none none none none none none
    10 none "App" "d" "a1" none rfl

/-- C2: after an authentication whose delivered 2xx–3xx response carries a
`set-cookie` header from which the token `t` is extracted (and every header
that parses yields that same `t`), the call returns the success object and
caches `portalaccesstoken=t` for the portal; a subsequent `kongRequest` with
`usePortalBaseUrl = true`, that portal, and no explicit cookies argument then
sends exactly one request whose `Cookie` header is `portalaccesstoken=t`,
while an explicit truthy cookies argument is sent in preference to the cached
value, and from a state with no cached cookie and no explicit argument no
`Cookie` header is sent at all. -/
theorem C2_cookie_attachment (w w1 w2 w3 : World) (st st0 : CState)
    (p u pw base : String) (s : Nat) (d : Json) (sc : List String) (t : String)
    (e m : String) (dta : Option Json) (c : String)
    (hp : p ≠ "") (hu : u ≠ "") (hpw : pw ≠ "")
    (hbase : lookupA st.portalBaseUrls p = some base)
    (hresp : w (authReqOf base u pw) = .response s d sc)
    (hs1 : 200 ≤ s) (hs2 : s < 400)
    (hex : ∃ ck ∈ sc, strContains ck "portalaccesstoken" = true ∧ tokenFromCookie ck = some t)
    (huniq : ∀ ck ∈ sc, ∀ v, tokenFromCookie ck = some v → v = t)
    (hc : c ≠ "")
    (hbase0 : lookupA st0.portalBaseUrls p = some base)
    (hcook0 : lookupA st0.portalAuthCookies p = none) :
    authenticateDevPortalDeveloper w st none none p (some u) (some pw) =
      (.ok authSuccess,
       { st with portalAuthCookies := setA st.portalAuthCookies p ("portalaccesstoken=" ++ t) },
       [authReqOf base u pw]) ∧
    (kongRequest w1
        { st with portalAuthCookies := setA st.portalAuthCookies p ("portalaccesstoken=" ++ t) }
        e m dta true (some p) none).2.2 =
      [{ method := m, url := base ++ portalEndpointAdjust e,
         headers := baseHeaders ++ [("Cookie", "portalaccesstoken=" ++ t)],
         body := normBody dta }] ∧
    (kongRequest w2
        { st with portalAuthCookies := setA st.portalAuthCookies p ("portalaccesstoken=" ++ t) }
        e m dta true (some p) (some c)).2.2 =
      [{ method := m, url := base ++ portalEndpointAdjust e,
         headers := baseHeaders ++ [("Cookie", c)],
         body := normBody dta }] ∧
    (kongRequest w3 st0 e m dta true (some p) none).2.2 =
      [{ method := m, url := base ++ portalEndpointAdjust e,
         headers := baseHeaders,
         body := normBody dta }] := by
  have hextract : extractToken sc = some t := extractToken_eq sc t hex huniq
  have hu' : (u == "") = false := by simp [hu]
  have hpw' : (pw == "") = false := by simp [hpw]
  refine ⟨?_, ?_, ?_, ?_⟩
  · simp [authenticateDevPortalDeveloper, orTruthy, hu', hpw', getPortalBaseUrl, hbase,
          hresp, hs1, hs2, hextract]
  · rw [kongRequest_cachedPortal w1
      { st with portalAuthCookies := setA st.portalAuthCookies p ("portalaccesstoken=" ++ t) }
      p base e m dta none hp hbase]
    simp [portalReqOf, cookieChoice, lookupA_setA_self]
  · rw [kongRequest_cachedPortal w2
      { st with portalAuthCookies := setA st.portalAuthCookies p ("portalaccesstoken=" ++ t) }
      p base e m dta (some c) hp hbase]
    simp [portalReqOf, cookieChoice, hc]
  · rw [kongRequest_cachedPortal w3 st0 p base e m dta none hp hbase0]
    simp [portalReqOf, cookieChoice, hcook0]

/-- World whose every response is a `204` carrying the session cookie. -/
def cookieWorld : World :=
  fun _ => Transport.response 204 Json.null ["portalaccesstoken=ABC123; Path=/; HttpOnly"]

theorem C2_witness :
    authenticateDevPortalDeveloper cookieWorld cStCached none none "p1" (some "dev") (some "pw") =
      (.ok authSuccess,
       { cStCached with portalAuthCookies := setA cStCached.portalAuthCookies "p1" ("portalaccesstoken=" ++ "ABC123") },
       [authReqOf "https://p1.portal.example" "dev" "pw"]) ∧
    (kongRequest cookieWorld
        { cStCached with portalAuthCookies := setA cStCached.portalAuthCookies "p1" ("portalaccesstoken=" ++ "ABC123") }
        "/api/v3/apis" "GET" none true (some "p1") none).2.2 =
      [{ method := "GET",
         url := "https://p1.portal.example" ++ portalEndpointAdjust "/api/v3/apis",
         headers := baseHeaders ++ [("Cookie", "portalaccesstoken=" ++ "ABC123")],
         body := normBody none }] ∧
    (kongRequest cookieWorld
        { cStCached with portalAuthCookies := setA cStCached.portalAuthCookies "p1" ("portalaccesstoken=" ++ "ABC123") }
        "/api/v3/apis" "GET" none true (some "p1") (some "portalaccesstoken=EXPLICIT")).2.2 =
      [{ method := "GET",
         url := "https://p1.portal.example" ++ portalEndpointAdjust "/api/v3/apis",
         headers := baseHeaders ++ [("Cookie", "portalaccesstoken=EXPLICIT")],
         body := normBody none }] ∧
    (kongRequest cookieWorld cStCached "/api/v3/apis" "GET" none true (some "p1") none).2.2 =
      [{ method := "GET",
         url := "https://p1.portal.example" ++ portalEndpointAdjust "/api/v3/apis",
         headers := baseHeaders,
         body := normBody none }] :=
  C2_cookie_attachment cookieWorld cookieWorld cookieWorld cookieWorld cStCached cStCached
    "p1" "dev" "pw" "https://p1.portal.example" 204 Json.null
    ["portalaccesstoken=ABC123; Path=/; HttpOnly"] "ABC123"
    "/api/v3/apis" "GET" none "portalaccesstoken=EXPLICIT"
    (by decide) (by decide) (by decide) rfl rfl (by decide) (by decide)
    ⟨"portalaccesstoken=ABC123; Path=/; HttpOnly", by simp, by rfl, by rfl⟩
    (by
      intro ck hck v hv
      simp only [List.mem_singleton] at hck
      subst hck
      rw [show tokenFromCookie "portalaccesstoken=ABC123; Path=/; HttpOnly" = some "ABC123" by rfl] at hv
      exact (Option.some.inj hv).symm)
    (by decide) rfl rfl

/-- State fixture with a resolved base URL and an already-cached session
cookie for portal `p1`. -/
def cStWithCookie : CState :=
  { adminBaseUrl := "https://us.api.konghq.com/v2", apiKey := "KEY",
    portalBaseUrls := [("p1", "https://p1.portal.example")],
    portalAuthCookies := [("p1", "portalaccesstoken=OLD")] }

/-- C7 counterexample: an authentication whose delivered `204` response has no
`set-cookie` header at all still returns the success object, but from a state
that already holds a session cookie for the portal the `portalAuthCookies`
map still has that entry afterwards — the claim's "has no entry for that
portal identifier afterwards" is false at this input. -/
theorem C7_counterexample :
    noContentWorld (authReqOf "https://p1.portal.example" "dev" "pw") =
      Transport.response 204 Json.null [] ∧
    authenticateDevPortalDeveloper noContentWorld cStWithCookie none none "p1"
        (some "dev") (some "pw") =
      (.ok authSuccess, cStWithCookie, [authReqOf "https://p1.portal.example" "dev" "pw"]) ∧
    lookupA (authenticateDevPortalDeveloper noContentWorld cStWithCookie none none "p1"
        (some "dev") (some "pw")).2.1.portalAuthCookies "p1" =
      some "portalaccesstoken=OLD" :=
  ⟨rfl, rfl, rfl⟩

/-- C7 (amended): an authentication whose delivered 2xx–3xx response carries
no `set-cookie` header mentioning `portalaccesstoken` returns the success
object and leaves the client state — in particular the `portalAuthCookies`
map — entirely unchanged: no entry is added for the portal (and a
pre-existing entry, if any, persists as-is). -/
theorem C7_no_cookie_cache_unchanged (w : World) (st : CState)
    (p u pw base : String) (s : Nat) (d : Json) (sc : List String)
    (hu : u ≠ "") (hpw : pw ≠ "")
    (hbase : lookupA st.portalBaseUrls p = some base)
    (hresp : w (authReqOf base u pw) = .response s d sc)
    (hs1 : 200 ≤ s) (hs2 : s < 400)
    (hnone : ∀ ck ∈ sc, strContains ck "portalaccesstoken" = false) :
    authenticateDevPortalDeveloper w st none none p (some u) (some pw) =
      (.ok authSuccess, st, [authReqOf base u pw]) := by
  have hx : extractToken sc = none := extractToken_none sc hnone
  have hu' : (u == "") = false := by simp [hu]
  have hpw' : (pw == "") = false := by simp [hpw]
  simp [authenticateDevPortalDeveloper, orTruthy, hu', hpw', getPortalBaseUrl, hbase,
        hresp, hs1, hs2, hx]

theorem C7_witness :
    authenticateDevPortalDeveloper noContentWorld cStCached none none "p1"
        (some "dev") (some "pw") =
      (.ok authSuccess, cStCached, [authReqOf "https://p1.portal.example" "dev" "pw"]) :=
  C7_no_cookie_cache_unchanged noContentWorld cStCached "p1" "dev" "pw"
    "https://p1.portal.example" 204 Json.null []
    (by decide) (by decide) rfl rfl (by decide) (by decide)
    (by intro ck hck; simp at hck)

/-- Application-create request issued by `createDevPortalApplication`
(through the portal branch of `kongRequest` with a cached base URL). -/
def appCreateReq (st : CState) (base p nm ds : String) (tok : Option String) : Request :=
  portalReqOf st base p "/api/v3/applications" "POST"
    (some (Json.obj [("name", Json.str nm), ("description", Json.str ds)]))
    (portalTokenCookie tok)

/-- Subscription-create request issued by `createDevPortalSubscription`. -/
def subCreateReq (st : CState) (base p appId apiId : String) (tok : Option String) : Request :=
  portalReqOf st base p ("/api/v3/applications/" ++ appId ++ "/registrations") "POST"
    (some (Json.obj [("api_id", Json.str apiId)]))
    (portalTokenCookie tok)

lemma createSub_trace (w : World) (st : CState) (apiId appId p base : String)
    (tok : Option String) (hp : p ≠ "") (hbase : lookupA st.portalBaseUrls p = some base) :
    (createDevPortalSubscription w st apiId appId (some p) tok).2.2 =
      [subCreateReq st base p appId apiId tok] := by
  unfold createDevPortalSubscription
  have hptru : truthyOpt (some p) = true := by simp [truthyOpt, hp]
  simp only [hptru, if_true]
  rw [kongRequest_cachedPortal w st p base _ "POST" _ _ hp hbase]
  cases h : handleTransport (w (portalReqOf st base p
      ("/api/v3/applications/" ++ appId ++ "/registrations") "POST"
      (some (Json.obj [("api_id", Json.str apiId)])) (portalTokenCookie tok))) with
  | error e => simp [subCreateReq]
  | ok r => cases hr : subCreateReshape r <;> simp [subCreateReq, hr]

/-- C5: `subscribeToApi` with `applicationId = "new"` and a truthy `appName`
issues exactly two upstream requests, in order: the application create, then
the subscription create whose URL embeds precisely the `id` returned by the
application-create response. When the application-create call throws, the
subscription request is never issued and `subscribeToApi` re-throws that
first error with an unchanged state. -/
theorem C5_new_application_flow (w w2 : World) (st : CState)
    (p base apiId nm : String) (desc : Option String) (tok : Option String)
    (s : Nat) (b : Json) (sc : List String) (newId : String) (err : KErr)
    (hp : p ≠ "") (hnm : nm ≠ "")
    (hbase : lookupA st.portalBaseUrls p = some base)
    (happ : w (appCreateReq st base p nm (desc.getD "") tok) = .response s b sc)
    (hs1 : 200 ≤ s) (hs2 : s < 300) (hs3 : s ≠ 204)
    (hid : fieldOrUndefined b "id" = Json.str newId)
    (herr : handleTransport (w2 (appCreateReq st base p nm (desc.getD "") tok)) = .error err) :
    (subscribeToApi w st apiId "new" (some nm) desc (some p) tok).2.2 =
      [appCreateReq st base p nm (desc.getD "") tok,
       subCreateReq st base p newId apiId tok] ∧
    subscribeToApi w2 st apiId "new" (some nm) desc (some p) tok =
      (.error err, st, [appCreateReq st base p nm (desc.getD "") tok]) := by
  obtain ⟨fs, hobj⟩ := obj_of_field hid (by simp)
  have hnew : (("new" == "new") && truthyOpt (some nm)) = true := by simp [truthyOpt, hnm]
  have hptru : truthyOpt (some p) = true := by simp [truthyOpt, hp]
  have happ' : w (portalReqOf st base p "/api/v3/applications" "POST"
      (some (Json.obj [("name", Json.str nm), ("description", Json.str (desc.getD ""))]))
      (portalTokenCookie tok)) = .response s b sc := happ
  have herr' : handleTransport (w2 (portalReqOf st base p "/api/v3/applications" "POST"
      (some (Json.obj [("name", Json.str nm), ("description", Json.str (desc.getD ""))]))
      (portalTokenCookie tok))) = .error err := herr
  have hok : handleTransport (w (portalReqOf st base p "/api/v3/applications" "POST"
      (some (Json.obj [("name", Json.str nm), ("description", Json.str (desc.getD ""))]))
      (portalTokenCookie tok))) = .ok b := by
    simp [handleTransport, happ', hs1, hs2, hs3]
  constructor
  · unfold subscribeToApi createDevPortalApplication
    simp only [hnew, if_true, hptru, Option.getD_some]
    rw [kongRequest_cachedPortal w st p base "/api/v3/applications" "POST" _
      (portalTokenCookie tok) hp hbase, hok]
    have hmem : memberable b = true := by rw [hobj]; rfl
    have hfid : jsFieldString b "id" = newId := by
      simp [jsFieldString, hid, Json.display]
    simp only [hmem, if_true, hfid]
    have hsubtr := createSub_trace w st apiId newId p base tok hp hbase
    rcases hsub : createDevPortalSubscription w st apiId newId (some p) tok with ⟨r, st2, tr2⟩
    rw [hsub] at hsubtr
    simp only at hsubtr
    cases r with
    | error e => simp [appCreateReq, hsubtr]
    | ok v => cases hrs : subscribeToApiReshape v <;> simp [appCreateReq, hsubtr, hrs]
  · unfold subscribeToApi createDevPortalApplication
    simp only [hnew, if_true, hptru, Option.getD_some]
    rw [kongRequest_cachedPortal w2 st p base "/api/v3/applications" "POST" _
      (portalTokenCookie tok) hp hbase, herr']
    simp [appCreateReq]

/-- World creating applications with id `APP1` (every delivered response is a
`201` with that body). -/
def appWorld : World :=
  fun _ => Transport.response 201 (Json.obj [("id", Json.str "APP1")]) []

/-- World failing every request with a `500` carrying a message. -/
def failWorld : World :=
  fun _ => Transport.response 500 (Json.obj [("message", Json.str "boom")]) []

theorem C5_witness :
    (subscribeToApi appWorld cStCached "api7" "new" (some "Test App") none (some "p1") none).2.2 =
      [appCreateReq cStCached "https://p1.portal.example" "p1" "Test App"
         ((none : Option String).getD "") none,
       subCreateReq cStCached "https://p1.portal.example" "p1" "APP1" "api7" none] ∧
    subscribeToApi failWorld cStCached "api7" "new" (some "Test App") none (some "p1") none =
      (.error (.thrown ("API Error (Status " ++ toString (500 : Nat) ++ "): " ++ "boom")), cStCached,
       [appCreateReq cStCached "https://p1.portal.example" "p1" "Test App"
          ((none : Option String).getD "") none]) :=
  C5_new_application_flow appWorld failWorld cStCached "p1" "https://p1.portal.example"
    "api7" "Test App" none none 201 (Json.obj [("id", Json.str "APP1")]) [] "APP1"
    (.thrown ("API Error (Status " ++ toString (500 : Nat) ++ "): " ++ "boom"))
    (by decide) (by decide) rfl rfl (by decide) (by decide) (by decide) rfl
    (by simp [handleTransport, failWorld, apiErrorK, fieldOrUndefined, Json.truthy, Json.display])

/-- C6: `subscribeToApi` with `applicationId = "new"` and no truthy `appName`
performs no application-create call: the only upstream request is the
subscription create whose URL uses the literal string `"new"` as the
application identifier. -/
theorem C6_literal_new (w : World) (st : CState) (p base apiId : String)
    (appName desc tok : Option String)
    (hp : p ≠ "") (hbase : lookupA st.portalBaseUrls p = some base)
    (hnm : truthyOpt appName = false) :
    (subscribeToApi w st apiId "new" appName desc (some p) tok).2.2 =
      [subCreateReq st base p "new" apiId tok] := by
  unfold subscribeToApi
  have hcond : (("new" == "new") && truthyOpt appName) = false := by simp [hnm]
  simp only [hcond, Bool.false_eq_true, if_false]
  have hsubtr := createSub_trace w st apiId "new" p base tok hp hbase
  rcases hsub : createDevPortalSubscription w st apiId "new" (some p) tok with ⟨r, st2, tr2⟩
  rw [hsub] at hsubtr
  simp only at hsubtr
  cases r with
  | error e => simp [hsubtr]
  | ok v => cases hrs : subscribeToApiReshape v <;> simp [hsubtr, hrs]

theorem C6_witness :
    (subscribeToApi appWorld cStCached "api7" "new" none none (some "p1") none).2.2 =
      [subCreateReq cStCached "https://p1.portal.example" "p1" "new" "api7" none] :=
  C6_literal_new appWorld cStCached "p1" "https://p1.portal.example" "api7" none none none
    (by decide) rfl rfl

lemma specLoop_trace (w : World) (apiId p base : String) (tok : Option String) (meta : Json)
    (hp : p ≠ "") (specs : List Json) :
    ∀ (st : CState) (acc : List Json) (tr : List Request),
      lookupA st.portalBaseUrls p = some base →
      (∀ spec ∈ specs, memberable spec = true ∧
        ∃ content, handleTransport (w (portalReqOf st base p (specFetchEndpoint apiId spec)
          "GET" none (portalTokenCookie tok))) = .ok content ∧ memberable content = true) →
      (specLoop w apiId (some p) tok meta st specs acc tr).2.2 =
        tr ++ specs.map (fun spec =>
          portalReqOf st base p (specFetchEndpoint apiId spec) "GET" none
            (portalTokenCookie tok)) := by
  induction specs with
  | nil =>
    intro st acc tr _ _
    simp [specLoop]
  | cons spec rest ih =>
    intro st acc tr hbase hs
    obtain ⟨hm, content, hcontent, hcm⟩ := hs spec (List.mem_cons_self spec rest)
    unfold specLoop
    simp only [hm, if_true]
    rw [kongRequest_cachedPortal w st p base (specFetchEndpoint apiId spec) "GET" none
      (portalTokenCookie tok) hp hbase, hcontent]
    simp only [hcm, if_true]
    rw [ih st _ _ hbase (fun sp hsp => hs sp (List.mem_cons_of_mem spec hsp))]
    simp

/-- C9: a discovery response whose body has no `data` array (missing, `null`,
or non-array member) makes `getDevPortalApiSpecifications` return a success
whose `data` field is the empty array after exactly one upstream call (no
per-specification fetch); a discovery response whose `data` array holds the
elements `specs` makes it issue exactly one fetch per discovered element,
in order, after the discovery call. -/
theorem C9_specification_fetches (wa wb : World) (st : CState) (p base apiId : String)
    (tok : Option String)
    (sa : Nat) (ba : Json) (sca : List String)
    (sb : Nat) (bb : Json) (scb : List String) (specs : List Json)
    (hp : p ≠ "")
    (hbase : lookupA st.portalBaseUrls p = some base)
    (ha : wa (portalReqOf st base p (specListEndpoint apiId) "GET" none
      (portalTokenCookie tok)) = .response sa ba sca)
    (hsa1 : 200 ≤ sa) (hsa2 : sa < 300) (hsa3 : sa ≠ 204)
    (hnoarr : (fieldOrUndefined ba "data").isArr = false)
    (hb : wb (portalReqOf st base p (specListEndpoint apiId) "GET" none
      (portalTokenCookie tok)) = .response sb bb scb)
    (hsb1 : 200 ≤ sb) (hsb2 : sb < 300) (hsb3 : sb ≠ 204)
    (hdata : fieldOrUndefined bb "data" = Json.arr specs)
    (hspecs : ∀ spec ∈ specs, memberable spec = true ∧
      ∃ content, handleTransport (wb (portalReqOf st base p (specFetchEndpoint apiId spec)
        "GET" none (portalTokenCookie tok))) = .ok content ∧ memberable content = true) :
    ((getDevPortalApiSpecifications wa st apiId (some p) tok).2.2 =
       [portalReqOf st base p (specListEndpoint apiId) "GET" none (portalTokenCookie tok)] ∧
     okDataField (getDevPortalApiSpecifications wa st apiId (some p) tok).1 =
       some (Json.arr [])) ∧
    (getDevPortalApiSpecifications wb st apiId (some p) tok).2.2 =
      portalReqOf st base p (specListEndpoint apiId) "GET" none (portalTokenCookie tok) ::
        specs.map (fun spec =>
          portalReqOf st base p (specFetchEndpoint apiId spec) "GET" none
            (portalTokenCookie tok)) := by
  have hptru : truthyOpt (some p) = true := by simp [truthyOpt, hp]
  have haok : handleTransport (wa (portalReqOf st base p (specListEndpoint apiId) "GET" none
      (portalTokenCookie tok))) = .ok ba := by
    simp [handleTransport, ha, hsa1, hsa2, hsa3]
  have hbok : handleTransport (wb (portalReqOf st base p (specListEndpoint apiId) "GET" none
      (portalTokenCookie tok))) = .ok bb := by
    simp [handleTransport, hb, hsb1, hsb2, hsb3]
  have hD : (if memberable ba then fieldOrUndefined ba "data" else Json.undefined).isArr = false := by
    cases hmb : memberable ba
    · simp [hmb, Json.isArr]
    · simpa [hmb] using hnoarr
  obtain ⟨fs, hobj⟩ := obj_of_field hdata (by simp)
  subst hobj
  refine ⟨?_, ?_⟩
  · unfold getDevPortalApiSpecifications
    simp only [hptru, if_true]
    rw [kongRequest_cachedPortal wa st p base (specListEndpoint apiId) "GET" none
      (portalTokenCookie tok) hp hbase, haok]
    simp only [hD]
    refine ⟨by simp, by simp [okDataField, fieldOrUndefined]⟩
  · unfold getDevPortalApiSpecifications
    simp only [hptru, if_true]
    rw [kongRequest_cachedPortal wb st p base (specListEndpoint apiId) "GET" none
      (portalTokenCookie tok) hp hbase, hbok]
    simp only [memberable, if_true, hdata, Json.truthy, Json.isArr, Json.elems]
    simp
    rw [specLoop_trace wb apiId p base tok (fieldOrUndefined (Json.obj fs) "meta") hp specs st []
      [portalReqOf st base p (specListEndpoint apiId) "GET" none (portalTokenCookie tok)]
      hbase hspecs]
    simp

/-- Specification element used by the C9 witness. -/
def specOne : Json := Json.obj [("id", Json.str "s1"), ("type", Json.str "oas3")]

/-- World whose every body has a non-array `data` member. -/
def noArrWorld : World :=
  fun _ => Transport.response 200 (Json.obj [("data", Json.str "nope")]) []

/-- World whose every response is the one-element specification listing. -/
def oneSpecWorld : World :=
  fun _ => Transport.response 200 (Json.obj [("data", Json.arr [specOne]), ("meta", Json.null)]) []

theorem C9_witness :
    ((getDevPortalApiSpecifications noArrWorld cStCached "a1" (some "p1") none).2.2 =
       [portalReqOf cStCached "https://p1.portal.example" "p1" (specListEndpoint "a1") "GET"
          none (portalTokenCookie none)] ∧
     okDataField (getDevPortalApiSpecifications noArrWorld cStCached "a1" (some "p1") none).1 =
       some (Json.arr [])) ∧
    (getDevPortalApiSpecifications oneSpecWorld cStCached "a1" (some "p1") none).2.2 =
      portalReqOf cStCached "https://p1.portal.example" "p1" (specListEndpoint "a1") "GET"
          none (portalTokenCookie none) ::
        [specOne].map (fun spec =>
          portalReqOf cStCached "https://p1.portal.example" "p1" (specFetchEndpoint "a1" spec)
            "GET" none (portalTokenCookie none)) :=
  C9_specification_fetches noArrWorld oneSpecWorld cStCached "p1" "https://p1.portal.example"
    "a1" none
    200 (Json.obj [("data", Json.str "nope")]) []
    200 (Json.obj [("data", Json.arr [specOne]), ("meta", Json.null)]) [] [specOne]
    (by decide) rfl rfl (by decide) (by decide) (by decide) rfl
    rfl (by decide) (by decide) (by decide) rfl
    (by
      intro spec hsp
      simp only [List.mem_singleton] at hsp
      subst hsp
      exact ⟨rfl, ⟨Json.obj [("data", Json.arr [specOne]), ("meta", Json.null)], rfl, rfl⟩⟩)

end KonnectPortal
